import Mathlib

/-!
Verification of the session/presentation core of `src/src/electron/index.js`
(now-desktop). The JavaScript is embedded shallowly: each handler becomes a
pure Lean function from its inputs (configuration contents, network outcomes,
dialog choices) to a value or an ordered list of effect descriptions, and the
startup sequence becomes an explicit event trace folded through a state
machine. JavaScript truthiness is modelled explicitly wherever the source
branches on it (an empty array is truthy, `false` and `undefined` are falsy,
a number is truthy iff nonzero, a string is truthy iff nonempty).
-/

namespace NowDesktop

/-- A deployment as fetched from the API and consumed by the menu loop
(index.js lines 113-189): the loop reads `info.uid`, `info.name`,
`info.url` and `info.created`. `created` is kept as the raw string the
API returns; the source pipes it through
`moment(new Date(parseInt(info.created, 10)))` and two `format` calls,
which are external date formatting and are modelled as two formatter
parameters below. -/
structure Deployment where
  uid : String
  name : String
  url : String
  created : String
deriving DecidableEq, Repr

/-- The persisted user record under config key `now.user`
(index.js lines 86-92). `token` is `Option String` because `user.token`
may be absent (`undefined`) in the stored object. -/
structure Session where
  token : Option String
  email : Option String
deriving DecidableEq, Repr

/-- JavaScript truthiness of `user.token` (index.js line 90):
`undefined` is falsy and a string is truthy iff it is nonempty. -/
def tokenTruthy : Option String → Bool
  | none => false
  | some s => s ≠ ""

/-- The possible values of the `deployments` variable in the ready handler
(index.js lines 78, 91, 94): never assigned (`undefined`), assigned `false`
by a failed `loadDeployments`, or assigned the fetched array. -/
inductive LoadResult where
  | undef
  | failed
  | list (l : List Deployment)
deriving DecidableEq, Repr

/-- JavaScript truthiness of the `deployments` variable at the
`if (deployments)` check (index.js line 94): `undefined` and `false` are
falsy; an array is truthy even when empty (`Boolean([])` is `true`). -/
def loadTruthy : LoadResult → Bool
  | .undef => false
  | .failed => false
  | .list _ => true

/-- `loadDeployments` (index.js lines 56-68): awaits `now.getDeployments()`;
on an exception it logs and returns `false`, otherwise it returns the list.
The network call is external, so its outcome is passed in as an
`Except Unit (List Deployment)` oracle. -/
def loadDeployments (fetch : Except Unit (List Deployment)) : LoadResult :=
  match fetch with
  | .error _ => .failed
  | .ok l => .list l

/-- The tray mode of the spec data model: `unresolved` before the ready
handler has decided `loggedIn`, then exactly one of `onboarding` or
`loggedIn` (the latter carrying the fetched catalog, index.js line 110). -/
inductive TrayMode where
  | unresolved
  | onboarding
  | loggedIn (catalog : List Deployment)
deriving DecidableEq, Repr

/-- Session resolution (index.js lines 86-97): if config key `now.user` is
absent, `loggedIn` stays `false`; if present and `user.token` is truthy the
deployment fetch runs; `loggedIn` becomes `true` exactly when the
`deployments` variable is truthy afterwards. The mode is `loggedIn` with the
fetched catalog when `loggedIn` is set, else `onboarding`. -/
def resolveMode (cfg : Option Session) (fetch : Except Unit (List Deployment)) :
    TrayMode :=
  match cfg with
  | none => .onboarding
  | some user =>
    let deployments : LoadResult :=
      if tokenTruthy user.token then loadDeployments fetch else .undef
    match deployments with
    | .list l => .loggedIn l
    | _ => .onboarding

/-- What a menu item click handler does, as a description (index.js lines
123-186): open the URL externally, copy it to the clipboard (the handler
also fires a notification, modelled in `runDelete`-style behavior
functions), or run the delete flow for a given deployment. -/
inductive ClickHandler where
  | openExternal (url : String)
  | copyUrl (url : String)
  | deleteFlow (name : String) (uid : String)
deriving DecidableEq, Repr

/-- One entry of a deployment submenu: an action with a label and a click
handler, a separator (`{type: 'separator'}`), or the disabled created-on
label (`enabled: false`, index.js lines 183-186). -/
inductive MenuItem where
  | action (label : String) (handler : ClickHandler)
  | separator
  | disabledLabel (label : String)
deriving DecidableEq, Repr

/-- A top-level deployment entry (`{label: info.name, submenu: [...]}`,
index.js lines 120-188). -/
structure SubmenuEntry where
  label : String
  submenu : List MenuItem
deriving DecidableEq, Repr

/-- The six-item submenu built for one deployment (index.js lines 117-187):
`url = 'https://' + info.url`; the items appear in source order. `fmtDate`
and `fmtTime` stand for the external
`moment(new Date(parseInt(info.created, 10))).format(...)` calls with
patterns `MMMM Do YYYY` and `h:mm a`. -/
def deploymentSubmenu (fmtDate fmtTime : String → String)
    (info : Deployment) : List MenuItem :=
  let url := "https://" ++ info.url
  [ .action "Open in Browser..." (.openExternal url),
    .action "Copy URL to Clipboard" (.copyUrl url),
    .separator,
    .action "Delete..." (.deleteFlow info.name info.uid),
    .separator,
    .disabledLabel ("Created on " ++ fmtDate info.created ++ ", "
      ++ fmtTime info.created) ]

/-- The menu built by the loop at index.js lines 113-189, as a function of
the catalog value: one `SubmenuEntry` per deployment, in catalog order. -/
def buildMenu (fmtDate fmtTime : String → String)
    (deployments : List Deployment) : List SubmenuEntry :=
  deployments.map fun info =>
    { label := info.name, submenu := deploymentSubmenu fmtDate fmtTime info }

/-- A cell of the `deployments` array variable: before the loop each cell
holds a fetched deployment; the loop body reassigns each cell
(`deployments[index] = {...}`, index.js line 120) to the built submenu
entry. -/
inductive CatalogCell where
  | dep (d : Deployment)
  | entry (e : SubmenuEntry)
deriving DecidableEq, Repr

/-- The in-place effect of the loop at index.js lines 113-189 on the
`deployments` array: every cell holding a deployment is overwritten with
the submenu entry built from it (a cell already holding an entry cannot
occur on the first run and is left unchanged). -/
def buildLoop (fmtDate fmtTime : String → String)
    (arr : List CatalogCell) : List CatalogCell :=
  arr.map fun c =>
    match c with
    | .dep d =>
      .entry { label := d.name, submenu := deploymentSubmenu fmtDate fmtTime d }
    | .entry e => .entry e

/-- Observable effects of the Delete... click handler
(index.js lines 144-178). -/
inductive DeleteEffect where
  | showDialog (title : String) (message : String) (detail : String)
  | apiDelete (uid : String)
  | showErrorMsg (msg : String)
  | notifyMsg (title : String) (text : String)
deriving DecidableEq, Repr

/-- The Delete... click handler (index.js lines 144-178): shows the
confirmation dialog (buttons `['Yes', 'Cancel']`, so the returned index 0
means Yes); `if (keepIt) return` makes any nonzero index a cancel; index 0
falls through to `now.deleteDeployment(info.uid)`, whose outcome is the
`apiResult` oracle: an exception logs and shows an error dialog, success
fires a notification. -/
def runDelete (name uid : String) (dialogChoice : Nat)
    (apiResult : Except Unit Unit) : List DeleteEffect :=
  let dlg := DeleteEffect.showDialog ("Removal of " ++ name)
    "Do you really want to delete this deployment?" name
  if dialogChoice ≠ 0 then
    [dlg]
  else
    match apiResult with
    | .error _ =>
      [dlg, .apiDelete uid,
        .showErrorMsg ("Wasn't not able to remove deployment " ++ name)]
    | .ok _ =>
      [dlg, .apiDelete uid,
        .notifyMsg ("Deleted " ++ name)
          "The deployment has successfully been deleted."]

/-- Number of `deleteDeployment` API calls in a delete-flow effect list. -/
def apiDeleteCount (fx : List DeleteEffect) : Nat :=
  fx.countP fun e =>
    match e with
    | .apiDelete _ => true
    | _ => false

/-- Observable effects of the `drop-files` handler
(index.js lines 47-54). The shared file is `files[0]`, which is
`undefined` (`none`) when the list is empty. -/
inductive DropEffect where
  | showErrorMsg (msg : String)
  | shareFile (f : Option String)
  | preventDefault
deriving DecidableEq, Repr

/-- `fileDropped` (index.js lines 47-54): if more than one file was
dropped, show an error and return (no share, no preventDefault);
otherwise share `files[0]` and prevent the default. -/
def fileDropped (files : List String) : List DropEffect :=
  if files.length > 1 then
    [.showErrorMsg
      "It's not yet possible to share multiple files/directories at once."]
  else
    [.shareFile files.head?, .preventDefault]

/-- Number of share invocations in a drop-handler effect list. -/
def shareCount (fx : List DropEffect) : Nat :=
  fx.countP fun e =>
    match e with
    | .shareFile _ => true
    | _ => false

/-- The state update of `toggleHighlight` (index.js lines 199-202) on the
`isHighlighted` boolean: it calls
`tray.setHighlightMode(isHighlighted ? 'never' : 'always')` and then
negates the flag. The returned pair is (mode passed to the tray, new flag
value). -/
def toggleHighlight (isHighlighted : Bool) : String × Bool :=
  ((if isHighlighted then "never" else "always"), !isHighlighted)

/-- Just the `isHighlighted` flag after one `toggleHighlight` call. -/
def toggleHighlightState (isHighlighted : Bool) : Bool :=
  (toggleHighlight isHighlighted).2

/-- The tutorial window state as observed by the tray click handler
(index.js lines 236): `tutorial.isVisible()` and `tutorial.isFocused()`. -/
structure TutorialState where
  visible : Bool
  focused : Bool
deriving DecidableEq, Repr

/-- Observable effects of the onboarding-mode primary click handler
(index.js lines 234-254). -/
inductive ClickEffect where
  | focusWin
  | hideWin
  | showWin
  | setHighlightMode (mode : String)
  | preventDefault
deriving DecidableEq, Repr

/-- The `tray.on('click')` handler in onboarding mode
(index.js lines 234-254). If the tutorial window is visible but not
focused, it focuses it and returns at once. Otherwise it hides or shows
the window according to `isHighlighted` (re-clearing the flag after
`show()`), then calls `toggleHighlight()` and `event.preventDefault()`.
Returns the ordered effect list and the new `isHighlighted` flag. -/
def onboardingClick (st : TutorialState) (isHighlighted : Bool) :
    List ClickEffect × Bool :=
  if st.visible && !st.focused then
    ([.focusWin], isHighlighted)
  else
    let visFx := if isHighlighted then [ClickEffect.hideWin]
      else [ClickEffect.showWin]
    let flagAfterVis := if isHighlighted then isHighlighted else false
    let toggled := toggleHighlight flagAfterVis
    (visFx ++ [.setHighlightMode toggled.1, .preventDefault], toggled.2)

/-- Events of the ready handler (index.js lines 76-279), in source order.
`configChecked` is `config.has('now.user')`, `configRead` is
`config.get('now.user')`, `fetchPerformed` is the awaited
`loadDeployments` call, `modeResolved` marks the point where the
`loggedIn` flag has been decided (end of the block at line 97),
`trayCreated` is `new Tray(...)` at line 105, `errorDialog` the catch at
line 107, and the wiring events are the two branches at lines 110-279. -/
inductive StartupEvent where
  | configChecked
  | configRead
  | fetchPerformed
  | modeResolved (m : TrayMode)
  | trayCreated
  | errorDialog
  | wiredLoggedIn
  | wiredOnboarding
deriving DecidableEq, Repr

/-- Which wiring branch runs after tray creation (index.js line 110):
`loggedIn` wires the deployment menu and drop handler, anything else wires
the onboarding window. -/
def wireEvent : TrayMode → StartupEvent
  | .loggedIn _ => .wiredLoggedIn
  | _ => .wiredOnboarding

/-- The resolution prefix of the ready trace (index.js lines 86-97): the
config check always runs; the config read runs when the key exists; the
fetch is awaited exactly when `user.token` is truthy; after the block the
mode is decided. -/
def resolutionTrace (cfg : Option Session)
    (fetch : Except Unit (List Deployment)) : List StartupEvent :=
  match cfg with
  | none => [.configChecked, .modeResolved (resolveMode none fetch)]
  | some user =>
    [StartupEvent.configChecked, StartupEvent.configRead] ++
      (if tokenTruthy user.token then [StartupEvent.fetchPerformed] else []) ++
      [.modeResolved (resolveMode (some user) fetch)]

/-- The full ready-handler trace (index.js lines 76-279): resolution first,
then tray creation (line 105) — which on an exception shows an error and
returns (lines 106-108) — then the mode-dependent wiring. `trayOk` is the
outcome of the `new Tray` call, an external collaborator. -/
def readyTrace (cfg : Option Session) (fetch : Except Unit (List Deployment))
    (trayOk : Bool) : List StartupEvent :=
  resolutionTrace cfg fetch ++
    (if trayOk then
      [.trayCreated, wireEvent (resolveMode cfg fetch)]
    else
      [.errorDialog])

/-- Observer state folded over a startup trace: which mode has been
resolved (initially `unresolved`) and whether the native tray icon
exists. -/
structure StartupState where
  mode : TrayMode
  trayExists : Bool
deriving DecidableEq, Repr

/-- One step of the startup observer. -/
def stepEvent (s : StartupState) : StartupEvent → StartupState
  | .modeResolved m => { s with mode := m }
  | .trayCreated => { s with trayExists := true }
  | _ => s

/-- The startup observer state after a list of events, from the initial
state (mode unresolved, no tray icon). -/
def runTrace (evs : List StartupEvent) : StartupState :=
  evs.foldl stepEvent { mode := .unresolved, trayExists := false }

/-- The deployment of end-to-end scenario B of the spec, used as a concrete
test input. -/
def sampleDeployment : Deployment :=
  { uid := "1", name := "proj", url := "proj.example.com", created := "1000" }

/-- An identity stand-in for the external date formatters, used when
evaluating the menu builder at concrete inputs. -/
def idFmt : String → String := fun s => s

/-! Theorems. -/

/-- Claim C2: when the persisted session is absent, and when a session token
is present and truthy but the deployment fetch fails, session resolution
yields the onboarding mode, and the wiring branch taken after tray creation
is the onboarding one (never the logged-in menu). -/
theorem claim_c2_resolve_onboarding_on_absent_or_failed :
    (∀ fetch, resolveMode none fetch = .onboarding ∧
      wireEvent (resolveMode none fetch) = .wiredOnboarding) ∧
    (∀ user : Session, tokenTruthy user.token = true →
      resolveMode (some user) (.error ()) = .onboarding ∧
      wireEvent (resolveMode (some user) (.error ())) = .wiredOnboarding) := by
  constructor
  · intro fetch
    exact ⟨rfl, rfl⟩
  · intro user h
    simp [resolveMode, h, loadDeployments, wireEvent]

/-- Witness for C2: the empty config, and a config whose token is `"tok"`
with a failing fetch. -/
theorem claim_c2_witness :
    resolveMode none (.ok []) = .onboarding ∧
    resolveMode (some { token := some "tok", email := some "mail" })
      (.error ()) = .onboarding :=
  ⟨(claim_c2_resolve_onboarding_on_absent_or_failed.1 (.ok [])).1,
   (claim_c2_resolve_onboarding_on_absent_or_failed.2
      { token := some "tok", email := some "mail" } (by decide)).1⟩

/-- Claim C3: with a truthy session token and a successful deployment fetch,
resolution yields the logged-in mode carrying the fetched catalog, for every
catalog including the empty one (an empty array is truthy at the
`if (deployments)` check). -/
theorem claim_c3_resolve_success_logged_in (user : Session)
    (l : List Deployment) (h : tokenTruthy user.token = true) :
    resolveMode (some user) (.ok l) = .loggedIn l := by
  simp [resolveMode, h, loadDeployments]

/-- Witness for C3: concrete token, with the empty catalog and with a
singleton catalog. -/
theorem claim_c3_witness :
    resolveMode (some { token := some "tok", email := none }) (.ok []) =
      .loggedIn [] ∧
    resolveMode (some { token := some "tok", email := none })
        (.ok [{ uid := "1", name := "proj", url := "proj.example.com",
                created := "1000" }]) =
      .loggedIn [{ uid := "1", name := "proj", url := "proj.example.com",
                   created := "1000" }] :=
  ⟨claim_c3_resolve_success_logged_in _ _ (by decide),
   claim_c3_resolve_success_logged_in _ _ (by decide)⟩

/-- Claim C5: in the delete flow, dialog index 0 (the Yes button) leads to
exactly one deleteDeployment API call whatever the call's outcome; any other
index leads to zero API calls and no effect beyond the confirmation dialog
itself, leaving catalog and menu untouched. -/
theorem claim_c5_delete_confirmation (name uid : String)
    (apiResult : Except Unit Unit) :
    apiDeleteCount (runDelete name uid 0 apiResult) = 1 ∧
    ∀ choice, choice ≠ 0 →
      apiDeleteCount (runDelete name uid choice apiResult) = 0 ∧
      runDelete name uid choice apiResult =
        [.showDialog ("Removal of " ++ name)
          "Do you really want to delete this deployment?" name] := by
  constructor
  · cases apiResult <;> rfl
  · intro choice h
    simp [runDelete, h, apiDeleteCount]

/-- Witness for C5: deployment `proj`, uid `1`; choice 0 deletes once,
choice 1 deletes nothing. -/
theorem claim_c5_witness :
    apiDeleteCount (runDelete "proj" "1" 0 (.ok ())) = 1 ∧
    apiDeleteCount (runDelete "proj" "1" 1 (.ok ())) = 0 :=
  ⟨(claim_c5_delete_confirmation "proj" "1" (.ok ())).1,
   ((claim_c5_delete_confirmation "proj" "1" (.ok ())).2 1 (by decide)).1⟩

/-- Claim C7: iterating toggleHighlight k times from any initial flag yields
the exclusive or of the parity of k with the initial value, and toggling is
a strict involution on the flag. -/
theorem claim_c7_toggle_parity (init : Bool) (k : Nat) :
    Nat.iterate toggleHighlightState k init =
      Bool.xor (decide (k % 2 = 1)) init ∧
    toggleHighlightState (toggleHighlightState init) = init := by
  constructor
  · induction k generalizing init with
    | zero => simp
    | succ k ih =>
      rw [Function.iterate_succ_apply, ih]
      rcases Nat.mod_two_eq_zero_or_one k with h | h
      · have h2 : (k + 1) % 2 = 1 := by omega
        cases init <;> simp [h, h2, toggleHighlightState, toggleHighlight]
      · have h2 : (k + 1) % 2 = 0 := by omega
        cases init <;> simp [h, h2, toggleHighlightState, toggleHighlight]
  · cases init <;> rfl

/-- Claim C9: a drop of more than one file shows the multiple-files error
and invokes share zero times; a drop of exactly one file invokes share
exactly once, with that file. -/
theorem claim_c9_drop_arity (files : List String) :
    (files.length > 1 →
      shareCount (fileDropped files) = 0 ∧
      fileDropped files =
        [.showErrorMsg
          "It's not yet possible to share multiple files/directories at once."]) ∧
    (∀ f, files = [f] →
      shareCount (fileDropped files) = 1 ∧
      fileDropped files = [.shareFile (some f), .preventDefault]) := by
  constructor
  · intro h
    simp [fileDropped, h, shareCount]
  · rintro f rfl
    simp [fileDropped, shareCount]

/-- Witness for C9: a two-file drop shares nothing; a one-file drop shares
that file. -/
theorem claim_c9_witness :
    (shareCount (fileDropped ["a", "b"]) = 0) ∧
    (shareCount (fileDropped ["a"]) = 1 ∧
      fileDropped ["a"] = [.shareFile (some "a"), .preventDefault]) :=
  ⟨((claim_c9_drop_arity ["a", "b"]).1 (by decide)).1,
   (claim_c9_drop_arity ["a"]).2 "a" rfl⟩

/-- Claim C10: a drop of zero files is not rejected by the
`files.length > 1` guard; share is invoked exactly once, receiving
`files[0]`, which for the empty list is `undefined` (`none`). -/
theorem claim_c10_drop_empty_shares_undefined :
    fileDropped [] = [.shareFile none, .preventDefault] ∧
    shareCount (fileDropped []) = 1 :=
  ⟨rfl, rfl⟩

/-- Claim C4: the built menu has exactly one submenu entry per deployment,
in catalog order, and each submenu holds exactly 6 children in the fixed
order: open-in-browser action on "https://" ++ url, copy-URL action,
separator, delete action, separator, disabled created-on label. -/
theorem claim_c4_menu_shape (fmtDate fmtTime : String → String)
    (cat : List Deployment) :
    (buildMenu fmtDate fmtTime cat).length = cat.length ∧
    ∀ (i : Nat) (d : Deployment), cat[i]? = some d →
      (buildMenu fmtDate fmtTime cat)[i]? = some
        { label := d.name,
          submenu :=
            [ .action "Open in Browser..."
                (.openExternal ("https://" ++ d.url)),
              .action "Copy URL to Clipboard"
                (.copyUrl ("https://" ++ d.url)),
              .separator,
              .action "Delete..." (.deleteFlow d.name d.uid),
              .separator,
              .disabledLabel ("Created on " ++ fmtDate d.created ++ ", "
                ++ fmtTime d.created) ] } ∧
      (deploymentSubmenu fmtDate fmtTime d).length = 6 := by
  refine ⟨by simp [buildMenu], ?_⟩
  intro i d h
  refine ⟨?_, rfl⟩
  simp [buildMenu, List.getElem?_map, h, deploymentSubmenu]

/-- Witness for C4: the scenario-B singleton catalog, at index 0, with
identity formatters. -/
theorem claim_c4_witness :
    (buildMenu idFmt idFmt [sampleDeployment]).length = 1 ∧
    (buildMenu idFmt idFmt [sampleDeployment])[0]? = some
      { label := "proj",
        submenu :=
          [ .action "Open in Browser..."
              (.openExternal "https://proj.example.com"),
            .action "Copy URL to Clipboard"
              (.copyUrl "https://proj.example.com"),
            .separator,
            .action "Delete..." (.deleteFlow "proj" "1"),
            .separator,
            .disabledLabel "Created on 1000, 1000" ] } :=
  ⟨(claim_c4_menu_shape idFmt idFmt [sampleDeployment]).1,
   by simpa [sampleDeployment, idFmt] using
     ((claim_c4_menu_shape idFmt idFmt [sampleDeployment]).2 0
       sampleDeployment rfl).1⟩

/-- Claim C6 counterexample: the loop reassigns the catalog array cells in
place, so after a build the one-deployment array no longer holds the
deployment — the input catalog is observably different after a build. -/
theorem claim_c6_counterexample :
    buildLoop idFmt idFmt [CatalogCell.dep sampleDeployment] ≠
      [CatalogCell.dep sampleDeployment] := by
  simp [buildLoop]

/-- Claim C6 amended: the menu built from a catalog value is deterministic —
equal catalogs with the same formatters yield structurally identical menu
trees — but the build is not pure in its input: the loop reassigns every
cell of the catalog array to the built submenu entry, so after the loop the
array holds exactly the menu entries in place of the deployments. -/
theorem claim_c6_amended_deterministic_inplace
    (fmtDate fmtTime : String → String) (cat cat2 : List Deployment)
    (h : cat = cat2) :
    buildMenu fmtDate fmtTime cat = buildMenu fmtDate fmtTime cat2 ∧
    buildLoop fmtDate fmtTime (cat.map CatalogCell.dep) =
      (buildMenu fmtDate fmtTime cat).map CatalogCell.entry := by
  subst h
  refine ⟨rfl, ?_⟩
  induction cat with
  | nil => rfl
  | cons d tl ih =>
    simp [buildLoop, buildMenu]

/-- Witness for C6 amended: the singleton catalog, compared with itself. -/
theorem claim_c6_amended_witness :
    buildLoop idFmt idFmt [CatalogCell.dep sampleDeployment] =
      (buildMenu idFmt idFmt [sampleDeployment]).map CatalogCell.entry :=
  (claim_c6_amended_deterministic_inplace idFmt idFmt
    [sampleDeployment] [sampleDeployment] rfl).2

/-- Claim C8 counterexample: with the tutorial window visible and not
focused, the primary-click handler focuses the window and returns at once —
preventDefault is never invoked on that path. -/
theorem claim_c8_counterexample :
    ClickEffect.preventDefault ∉
      (onboardingClick { visible := true, focused := false } false).1 := by
  decide

/-- Claim C8 amended: on the visibility-toggling path (window hidden, or
visible and focused) the primary-click handler does invoke preventDefault;
on the focus-only path (visible and not focused) it only focuses the window
and returns without invoking preventDefault. -/
theorem claim_c8_amended_prevent_default (st : TutorialState) (hl : Bool) :
    (st.visible = false ∨ st.focused = true →
      ClickEffect.preventDefault ∈ (onboardingClick st hl).1) ∧
    (st.visible = true → st.focused = false →
      (onboardingClick st hl).1 = [.focusWin]) := by
  obtain ⟨v, f⟩ := st
  cases v <;> cases f <;> cases hl <;>
    simp [onboardingClick, toggleHighlight]

/-- Witness for C8 amended: hidden window (toggle path) and visible
unfocused window (focus path). -/
theorem claim_c8_amended_witness :
    ClickEffect.preventDefault ∈
      (onboardingClick { visible := false, focused := false } false).1 ∧
    (onboardingClick { visible := true, focused := false } false).1 =
      [.focusWin] :=
  ⟨(claim_c8_amended_prevent_default
      { visible := false, focused := false } false).1 (Or.inl rfl),
   (claim_c8_amended_prevent_default
      { visible := true, focused := false } false).2 rfl rfl⟩

/-- Folding the startup observer over events with no tray creation leaves
the tray-existence flag unchanged. -/
lemma foldl_trayExists_of_no_tray (evs : List StartupEvent)
    (s : StartupState) (h : StartupEvent.trayCreated ∉ evs) :
    (evs.foldl stepEvent s).trayExists = s.trayExists := by
  induction evs generalizing s with
  | nil => rfl
  | cons e tl ih =>
    simp only [List.mem_cons, not_or] at h
    obtain ⟨h1, h2⟩ := h
    rw [List.foldl_cons, ih _ h2]
    cases e <;> simp [stepEvent] at h1 ⊢

/-- Folding the startup observer over events with no mode resolution leaves
the mode unchanged. -/
lemma foldl_mode_of_no_resolve (evs : List StartupEvent) (s : StartupState)
    (h : ∀ m, StartupEvent.modeResolved m ∉ evs) :
    (evs.foldl stepEvent s).mode = s.mode := by
  induction evs generalizing s with
  | nil => rfl
  | cons e tl ih =>
    have h2 : ∀ m, StartupEvent.modeResolved m ∉ tl := by
      intro m hm
      exact h m (List.mem_cons_of_mem e hm)
    rw [List.foldl_cons, ih _ h2]
    cases e with
    | modeResolved m => exact absurd (List.mem_cons_self _ tl) (h m)
    | _ => rfl

/-- The resolution prefix of the ready trace never creates the tray. -/
lemma resolutionTrace_no_tray (cfg : Option Session)
    (fetch : Except Unit (List Deployment)) :
    StartupEvent.trayCreated ∉ resolutionTrace cfg fetch := by
  rcases cfg with _ | user
  · simp [resolutionTrace]
  · cases h : tokenTruthy user.token <;> simp [resolutionTrace, h]

/-- After folding the resolution prefix, the observed mode is exactly the
resolved mode. -/
lemma resolution_fold_mode (cfg : Option Session)
    (fetch : Except Unit (List Deployment)) (s : StartupState) :
    ((resolutionTrace cfg fetch).foldl stepEvent s).mode =
      resolveMode cfg fetch := by
  rcases cfg with _ | user
  · simp [resolutionTrace, stepEvent]
  · cases h : tokenTruthy user.token <;>
      simp [resolutionTrace, h, stepEvent]

/-- Session resolution always decides a mode: it never returns
`unresolved`. -/
lemma resolveMode_ne_unresolved (cfg : Option Session)
    (fetch : Except Unit (List Deployment)) :
    resolveMode cfg fetch ≠ .unresolved := by
  rcases cfg with _ | user
  · simp [resolveMode]
  · cases h : tokenTruthy user.token <;> rcases fetch with _ | l <;>
      simp [resolveMode, h, loadDeployments]

/-- A wiring event is never a mode resolution. -/
lemma wireEvent_ne_resolve (md m : TrayMode) :
    wireEvent md ≠ .modeResolved m := by
  cases md <;> simp [wireEvent]

/-- The part of the ready trace after resolution contains no mode
resolution event. -/
lemma post_trace_no_resolve (cfg : Option Session)
    (fetch : Except Unit (List Deployment)) (trayOk : Bool) (m : TrayMode) :
    StartupEvent.modeResolved m ∉
      (if trayOk then
        [StartupEvent.trayCreated, wireEvent (resolveMode cfg fetch)]
      else
        [StartupEvent.errorDialog]) := by
  cases trayOk <;> simp
  exact fun hm => (wireEvent_ne_resolve _ m) hm.symm

/-- Claim C1: at every prefix of the ready-handler trace, an existing tray
icon implies the mode has already been resolved — the icon is created only
after the config read and, when a token is present, the deployment fetch
have fully completed, so no click handler can observe an icon while the
mode is still unresolved. -/
theorem claim_c1_tray_only_after_resolution (cfg : Option Session)
    (fetch : Except Unit (List Deployment)) (trayOk : Bool) (n : Nat)
    (h : (runTrace ((readyTrace cfg fetch trayOk).take n)).trayExists =
      true) :
    (runTrace ((readyTrace cfg fetch trayOk).take n)).mode =
      resolveMode cfg fetch ∧
    (runTrace ((readyTrace cfg fetch trayOk).take n)).mode ≠
      .unresolved := by
  have hsplit : (readyTrace cfg fetch trayOk).take n =
      (resolutionTrace cfg fetch).take n ++
      (if trayOk then
        [StartupEvent.trayCreated, wireEvent (resolveMode cfg fetch)]
      else
        [StartupEvent.errorDialog]).take
          (n - (resolutionTrace cfg fetch).length) := by
    rw [readyTrace, List.take_append_eq_append_take]
  by_cases hn : n ≤ (resolutionTrace cfg fetch).length
  · exfalso
    rw [runTrace, hsplit, Nat.sub_eq_zero_of_le hn, List.take_zero,
      List.append_nil] at h
    rw [foldl_trayExists_of_no_tray _ _
      (fun hc => resolutionTrace_no_tray cfg fetch
        (List.take_subset n _ hc))] at h
    exact Bool.false_ne_true h
  · have hlen : (resolutionTrace cfg fetch).length ≤ n :=
      Nat.le_of_not_le hn
    have hmode : (runTrace ((readyTrace cfg fetch trayOk).take n)).mode =
        resolveMode cfg fetch := by
      rw [runTrace, hsplit, List.take_of_length_le hlen,
        List.foldl_append]
      rw [foldl_mode_of_no_resolve _ _
        (fun m hm => post_trace_no_resolve cfg fetch trayOk m
          (List.take_subset _ _ hm))]
      exact resolution_fold_mode cfg fetch _
    exact ⟨hmode, hmode ▸ resolveMode_ne_unresolved cfg fetch⟩

/-- Witness for C1: empty config, successful tray creation, the whole
trace (a large take index). -/
theorem claim_c1_witness :
    (runTrace ((readyTrace none (.ok []) true).take 4)).trayExists = true ∧
    (runTrace ((readyTrace none (.ok []) true).take 4)).mode ≠
      .unresolved :=
  ⟨by decide, (claim_c1_tray_only_after_resolution none (.ok []) true 4
    (by decide)).2⟩

end NowDesktop
